import Mathlib

/-!
Verification of the LIN slave protocol engine of `LIN_slave_portable_Arduino`.

The definitions below are a shallow embedding of `src/LIN_slave_Base.cpp` /
`src/LIN_slave_Base.h` (class `LIN_Slave_Base`).  Machine integers (`uint8_t`,
`uint16_t`, `uint32_t`) are modelled as `Nat` with explicit `% 2^w` at the
points where the C code truncates; `x & 0x3F` is written `x % 64` and
`x & 0x0F` is written `x % 16` (equal for natural numbers).  The hardware
abstraction (serial port, BREAK-detection flag, `micros()` clock, RS485
transmit-enable pin) is modelled as an explicit environment record plus an
event trace: callback invocations, serial writes and transmit-enable changes
are recorded as events so that "the callback is invoked exactly once" and
"these bytes are transmitted" are statable.
-/

/-- LIN protocol version `LIN_V1` (from `version_t` in LIN_slave_Base.h). -/
def LIN_V1 : Nat := 1

/-- LIN protocol version `LIN_V2` (from `version_t` in LIN_slave_Base.h). -/
def LIN_V2 : Nat := 2

/-- Frame type `MASTER_REQUEST` (high nibble of `type_numData`). -/
def MASTER_REQUEST : Nat := 0x10

/-- Frame type `SLAVE_RESPONSE` (high nibble of `type_numData`). -/
def SLAVE_RESPONSE : Nat := 0x20

/-- State machine state `STATE_OFF` (bitmask encoding from `state_t`). -/
def STATE_OFF : Nat := 0x01

/-- State machine state `STATE_WAIT_FOR_BREAK`. -/
def STATE_WAIT_FOR_BREAK : Nat := 0x02

/-- State machine state `STATE_WAIT_FOR_SYNC`. -/
def STATE_WAIT_FOR_SYNC : Nat := 0x04

/-- State machine state `STATE_WAIT_FOR_PID`. -/
def STATE_WAIT_FOR_PID : Nat := 0x08

/-- State machine state `STATE_RECEIVING_DATA`. -/
def STATE_RECEIVING_DATA : Nat := 0x10

/-- State machine state `STATE_RECEIVING_ECHO`. -/
def STATE_RECEIVING_ECHO : Nat := 0x20

/-- State machine state `STATE_WAIT_FOR_CHK`. -/
def STATE_WAIT_FOR_CHK : Nat := 0x40

/-- State machine state `STATE_DONE`. -/
def STATE_DONE : Nat := 0x80

/-- Error code `NO_ERROR` (from `error_t`). -/
def NO_ERROR : Nat := 0x00

/-- Error bit `ERROR_STATE`. -/
def ERROR_STATE : Nat := 0x01

/-- Error bit `ERROR_ECHO`. -/
def ERROR_ECHO : Nat := 0x02

/-- Error bit `ERROR_TIMEOUT`. -/
def ERROR_TIMEOUT : Nat := 0x04

/-- Error bit `ERROR_CHK`. -/
def ERROR_CHK : Nat := 0x08

/-- Error bit `ERROR_SYNC`. -/
def ERROR_SYNC : Nat := 0x10

/-- Error bit `ERROR_PID`. -/
def ERROR_PID : Nat := 0x20

/-- Error bit `ERROR_MISC`. -/
def ERROR_MISC : Nat := 0x80

/-- Embedding of `LIN_Slave_Base::_calculatePID(uint8_t ID)` (LIN_slave_Base.cpp, lines
30-45): clear bits 6..7 of the ID (`ID & 0x3F`, written `% 64`), set bit 6 to
`ID0^ID1^ID2^ID4` and bit 7 to `~(ID1^ID3^ID4^ID5)`; `~x & 0x01` flips the low
bit, written `(x + 1) % 2`. -/
def _calculatePID (ID : Nat) : Nat :=
  let pid := ID % 64
  let tmp := (pid ^^^ (pid >>> 1) ^^^ (pid >>> 2) ^^^ (pid >>> 4)) % 2
  let pid := pid ||| (tmp <<< 6)
  let tmp := (((pid >>> 1) ^^^ (pid >>> 3) ^^^ (pid >>> 4) ^^^ (pid >>> 5)) + 1) % 2
  let pid := pid ||| (tmp <<< 7)
  pid

/-- Embedding of `LIN_Slave_Base::_calculateChecksum(uint8_t NumData, uint8_t Data[])`
(LIN_slave_Base.cpp, lines 56-84).  The `uint16_t` accumulator `chk` starts at
`0`, or at the stored protected ID unless the protocol version is `LIN_V1` or
the stored PID is `0x3C` / `0x7D` (diagnostic frames); each data byte is added
(`% 65536` models the `uint16_t` addition) followed by the carry fold
`if (chk > 255) chk -= 255`; the result is `0xFF - (uint8_t)chk`. -/
def _calculateChecksum (version pid NumData : Nat) (Data : Nat → Nat) : Nat :=
  let chk : Nat := if ¬(version = LIN_V1 ∨ pid = 0x3C ∨ pid = 0x7D) then pid else 0
  let chk := (List.range NumData).foldl
    (fun c i =>
      let c := (c + Data i) % 65536
      if c > 255 then c - 255 else c) chk
  0xFF - chk % 256

/-- End-around-carry byte sum, as the spec words it: add each byte and, if the
running sum exceeds 255, subtract 255; identical zero-seeded loop as
`_calculateChecksum` but taken over an explicit byte list.  Used to compare the
code's checksum with the spec's description (classical = over the data bytes
only, extended = over the protected ID followed by the data bytes). -/
def eacSum (bytes : List Nat) : Nat :=
  bytes.foldl (fun s b => let s := s + b; if s > 255 then s - 255 else s) 0

/-- Type of user frame callbacks, `void (*)(uint8_t numData, uint8_t* data)`.
The callback receives the current number of data bytes and the 9-byte frame
buffer by pointer; it may read and rewrite the buffer, so it is modelled as a
function from the length and the old buffer contents to the new buffer
contents. -/
def LinMessageCallback := Nat → (Nat → Nat) → (Nat → Nat)

/-- One slot of the 64-entry callback table (`callback_t`): frame type in the
high nibble plus data-byte count in the low nibble, and the nullable callback
function pointer. -/
structure Callback_t where
  type_numData : Nat
  fct : Option LinMessageCallback

/-- The engine state: the member variables of class `LIN_Slave_Base` that the
protocol logic reads or writes.  The RS485 pin (`pinTxEN`) is modelled by
transmit-enable events, the BREAK flag by the environment. -/
structure LIN_Slave where
  baudrate : Nat
  version : Nat
  state : Nat
  error : Nat
  callback : Nat → Callback_t
  pid : Nat
  id : Nat
  type : Nat
  numData : Nat
  bufData : Nat → Nat
  idxData : Nat
  timeoutRx : Nat
  timeLastRx : Nat

/-- Hardware environment for one `handler()` invocation: the `micros()` clock
reading, the BREAK-detection flag (`_getBreakFlag()`), and the pending receive
bytes (`available()` / `_serialRead()`). -/
structure Env where
  micros : Nat
  breakFlag : Bool
  rx : List Nat

/-- Externally visible actions of one `handler()` invocation. -/
inductive Event where
  /-- a user callback was invoked: frame ID, byte count, buffer contents
  passed to it (first `numData` bytes) -/
  | callbackCall (id numData : Nat) (data : List Nat)
  /-- the call `_serialWrite(buf, num)`: the transmitted bytes -/
  | serialWrite (bytes : List Nat)
  /-- the call `_enableTransmitter()` -/
  | txEnable
  /-- the call `_disableTransmitter()` -/
  | txDisable
deriving DecidableEq

/-- Result of one `handler()` invocation: new engine state, remaining receive
buffer, emitted events in order. -/
structure HandlerOut where
  st : LIN_Slave
  rx : List Nat
  events : List Event

/-- Third phase of `LIN_Slave_Base::handler()` (LIN_slave_Base.cpp, lines
342-619): if a byte is available, read it, stamp `timeLastRx`, and dispatch on
the state (the `switch` statement).  The `nullptr` check on the callback is
modelled by matching on the `Option`; in `STATE_WAIT_FOR_CHK` the source calls
the callback unconditionally (reachable only with a registered callback), so
the `none` case there performs no call.  `rx1` is the receive buffer left by
the first phase and `ev2` the events already emitted. -/
def handleByte (env : Env) (rx1 : List Nat) (ev2 : List Event) (s2 : LIN_Slave) :
    HandlerOut :=
  match rx1 with
  | [] => ⟨s2, rx1, ev2⟩
  | byteReceived :: rest =>
    let s := {s2 with timeLastRx := env.micros}
    if s.state = STATE_OFF ∨ s.state = STATE_WAIT_FOR_BREAK ∨ s.state = STATE_DONE then
      ⟨s, rest, ev2⟩
    else if s.state = STATE_WAIT_FOR_SYNC then
      if byteReceived = 0x55 then
        ⟨{s with idxData := 0, state := STATE_WAIT_FOR_PID}, rest, ev2⟩
      else
        ⟨{s with error := s.error ||| ERROR_SYNC, state := STATE_DONE}, rest,
          ev2 ++ [Event.txDisable]⟩
    else if s.state = STATE_WAIT_FOR_PID then
      let s := {s with pid := byteReceived, id := byteReceived % 64}
      if s.pid ≠ _calculatePID s.id then
        ⟨{s with error := s.error ||| ERROR_PID, state := STATE_DONE}, rest,
          ev2 ++ [Event.txDisable]⟩
      else
        match (s.callback s.id).fct with
        | some f =>
          if (s.callback s.id).type_numData &&& SLAVE_RESPONSE ≠ 0 then
            -- slave response: invoke callback, attach checksum, transmit
            let ftype := (s.callback s.id).type_numData &&& 0xF0
            let n := (s.callback s.id).type_numData % 16
            let buf := f n s.bufData
            let buf2 := fun j =>
              if j = n then _calculateChecksum s.version s.pid n buf else buf j
            ⟨{s with
                type := ftype
                numData := n
                bufData := buf2
                state := STATE_RECEIVING_ECHO}, rest,
              ev2 ++ [Event.callbackCall s.id n ((List.range n).map s.bufData),
                Event.txEnable,
                Event.serialWrite ((List.range (n + 1)).map buf2)]⟩
          else if (s.callback s.id).type_numData &&& MASTER_REQUEST ≠ 0 then
            -- master request: record type and length, receive data
            let ftype := (s.callback s.id).type_numData &&& 0xF0
            let n := (s.callback s.id).type_numData % 16
            ⟨{s with type := ftype, numData := n, state := STATE_RECEIVING_DATA},
              rest, ev2⟩
          else
            ⟨{s with state := STATE_WAIT_FOR_BREAK}, rest, ev2⟩
        | none =>
          ⟨{s with state := STATE_WAIT_FOR_BREAK}, rest, ev2⟩
    else if s.state = STATE_RECEIVING_DATA then
      -- bufData[idxData++] = byteReceived, then compare new idxData to numData
      let i := s.idxData
      let s := {s with
        bufData := fun j => if j = i then byteReceived else s.bufData j
        idxData := (i + 1) % 256}
      if s.idxData ≥ s.numData then
        ⟨{s with state := STATE_WAIT_FOR_CHK}, rest, ev2⟩
      else
        ⟨s, rest, ev2⟩
    else if s.state = STATE_RECEIVING_ECHO then
      -- compare bufData[idxData++] with the received echo byte
      let i := s.idxData
      let s := {s with idxData := (i + 1) % 256}
      if s.bufData i ≠ byteReceived then
        ⟨{s with error := s.error ||| ERROR_ECHO, state := STATE_DONE}, rest,
          ev2 ++ [Event.txDisable]⟩
      else if s.idxData ≥ s.numData + 1 then
        ⟨{s with state := STATE_DONE}, rest, ev2 ++ [Event.txDisable]⟩
      else
        ⟨s, rest, ev2⟩
    else if s.state = STATE_WAIT_FOR_CHK then
      let chk_calc := _calculateChecksum s.version s.pid s.numData s.bufData
      if byteReceived = chk_calc then
        match (s.callback s.id).fct with
        | some f =>
          ⟨{s with bufData := f s.numData s.bufData, state := STATE_DONE}, rest,
            ev2 ++ [Event.callbackCall s.id s.numData
              ((List.range s.numData).map s.bufData), Event.txDisable]⟩
        | none =>
          ⟨{s with state := STATE_DONE}, rest, ev2 ++ [Event.txDisable]⟩
      else
        ⟨{s with error := s.error ||| ERROR_CHK, state := STATE_DONE}, rest,
          ev2 ++ [Event.txDisable]⟩
    else
      -- default: illegal state
      ⟨{s with error := s.error ||| ERROR_STATE, state := STATE_DONE}, rest,
        ev2 ++ [Event.txDisable]⟩

/-- Second phase of `LIN_Slave_Base::handler()` (LIN_slave_Base.cpp, lines
319-339): if the BREAK-detection flag is set, consume it, start frame
reception (`state := STATE_WAIT_FOR_SYNC` regardless of the current state) and
disable the transmitter; then fall through to the byte phase. -/
def handleBreak (env : Env) (rx1 : List Nat) (ev1 : List Event) (s1 : LIN_Slave) :
    HandlerOut :=
  if env.breakFlag then
    handleByte env rx1 (ev1 ++ [Event.txDisable]) {s1 with state := STATE_WAIT_FOR_SYNC}
  else
    handleByte env rx1 ev1 s1

/-- Embedding of `LIN_Slave_Base::handler()` (LIN_slave_Base.cpp, lines 288-621), one
invocation.  First phase (lines 292-316): the receive-timeout guard is the C
expression `!(state | (STATE_OFF | STATE_WAIT_FOR_BREAK | STATE_DONE))`
(bitwise OR, exactly as written in the source at line 293) conjoined with
`micros() - timeLastRx > timeoutRx` (`uint32_t` wrap-around subtraction); on
timeout it latches ERROR_TIMEOUT, forces STATE_DONE, flushes the receive
buffer and disables the transmitter.  Then the BREAK phase and the byte phase
run (`handleBreak`, `handleByte`). -/
def handler (env : Env) (s0 : LIN_Slave) : HandlerOut :=
  if (s0.state ||| (STATE_OFF ||| STATE_WAIT_FOR_BREAK ||| STATE_DONE)) = 0
      ∧ (env.micros + 2 ^ 32 - s0.timeLastRx) % 2 ^ 32 > s0.timeoutRx then
    handleBreak env [] [Event.txDisable]
      {s0 with error := s0.error ||| ERROR_TIMEOUT, state := STATE_DONE}
  else
    handleBreak env env.rx [] s0

/-- Embedding of `LIN_Slave_Base::registerMasterRequestHandler(ID, Fct, NumData)`
(LIN_slave_Base.cpp, lines 235-252): mask the ID to 6 bits (`& 0x3F`, written
`% 64`) and overwrite that table slot with
`MASTER_REQUEST | (NumData & 0x0F)` (written `% 16`) and the callback. -/
def registerMasterRequestHandler (s : LIN_Slave) (ID : Nat)
    (Fct : Option LinMessageCallback) (NumData : Nat) : LIN_Slave :=
  let ID := ID % 64
  {s with callback := fun j =>
    if j = ID then ⟨MASTER_REQUEST ||| NumData % 16, Fct⟩ else s.callback j}

/-- Embedding of `LIN_Slave_Base::registerSlaveResponseHandler(ID, Fct, NumData)`
(LIN_slave_Base.cpp, lines 263-280): identical, with `SLAVE_RESPONSE`. -/
def registerSlaveResponseHandler (s : LIN_Slave) (ID : Nat)
    (Fct : Option LinMessageCallback) (NumData : Nat) : LIN_Slave :=
  let ID := ID % 64
  {s with callback := fun j =>
    if j = ID then ⟨SLAVE_RESPONSE ||| NumData % 16, Fct⟩ else s.callback j}

/-- Embedding of `LIN_Slave_Base::resetError()` (LIN_slave_Base.h, lines 247-257). -/
def resetError (s : LIN_Slave) : LIN_Slave :=
  {s with error := NO_ERROR}

/-- Embedding of `LIN_Slave_Base::getError()` (LIN_slave_Base.h, lines 260-270). -/
def getError (s : LIN_Slave) : Nat :=
  s.error

/-- Embedding of `LIN_Slave_Base::begin(Baudrate)` (LIN_slave_Base.cpp, lines 171-201):
store the baudrate, clear the latched error, state := STATE_WAIT_FOR_BREAK. -/
def begin' (s : LIN_Slave) (Baudrate : Nat) : LIN_Slave :=
  {s with baudrate := Baudrate, error := NO_ERROR, state := STATE_WAIT_FOR_BREAK}

/-- Embedding of `LIN_Slave_Base::end()` (LIN_slave_Base.cpp, lines 209-224):
clear the latched error, state := STATE_OFF. -/
def end' (s : LIN_Slave) : LIN_Slave :=
  {s with error := NO_ERROR, state := STATE_OFF}

/-- An engine state with everything cleared, as after the constructor
(LIN_slave_Base.cpp, lines 127-162) with version `LIN_V2` and the default
receive timeout of 1500 us. -/
def initSlave : LIN_Slave where
  baudrate := 19200
  version := LIN_V2
  state := STATE_WAIT_FOR_BREAK
  error := NO_ERROR
  callback := fun _ => ⟨0, none⟩
  pid := 0
  id := 0
  type := 0
  numData := 0
  bufData := fun _ => 0
  idxData := 0
  timeoutRx := 1500
  timeLastRx := 0

/-- Concrete failing input for claim C1: engine mid-frame in
`STATE_RECEIVING_DATA` (a 4-byte master-request payload, first byte pending),
last byte received at time 0. -/
def stC1 : LIN_Slave :=
  {initSlave with
    state := STATE_RECEIVING_DATA
    numData := 4
    timeLastRx := 0}

/-- Environment for claim C1: one second has elapsed (far beyond the 1500 us
receive timeout) and one byte `0x42` is pending. -/
def envC1 : Env := ⟨1000000, false, [0x42]⟩

/-- Concrete mid-frame state for claim C5: the engine is receiving
master-request data (2 of 4 payload bytes already stored). -/
def stC5 : LIN_Slave :=
  {initSlave with
    state := STATE_RECEIVING_DATA
    numData := 4
    idxData := 2}

/-- Environment for claim C5: BREAK detected while mid-frame, no byte
pending. -/
def envC5 : Env := ⟨0, true, []⟩

/-- Concrete state for the C7 witness: `STATE_WAIT_FOR_PID`, a previously
latched SYNC error, empty callback table. -/
def stC7 : LIN_Slave :=
  {initSlave with
    state := STATE_WAIT_FOR_PID
    error := ERROR_SYNC}

/-- Environment for the C7 witness: the valid protected ID `0x50`
(= `calculatePID(0x10)`) arrives. -/
def envC7 : Env := ⟨42, false, [0x50]⟩

/-- Callback for the C4 witness: writes `{0x01, 0x02, 0x03, 0x04}` into the
frame buffer, as in the spec scenario. -/
def cbC4 : LinMessageCallback := fun _ _ =>
  fun j => if j = 0 then 1 else if j = 1 then 2 else if j = 2 then 3
    else if j = 3 then 4 else 0

/-- Engine state for the C4 witness: ID `0x10` registered as a 4-byte slave
response (`type_numData = 0x24`), protocol `LIN_V2`, awaiting the PID. -/
def stC4 : LIN_Slave :=
  {initSlave with
    state := STATE_WAIT_FOR_PID
    callback := fun j => if j = 0x10 then ⟨0x24, some cbC4⟩ else ⟨0, none⟩}

/-- Environment for the C4 witness: the protected ID of `0x10` (= `0x50`)
arrives. -/
def envC4 : Env := ⟨100, false, [0x50]⟩

/-- Identity callback used in witnesses (reads the frame, writes nothing). -/
def cbId : LinMessageCallback := fun _ buf => buf

/-- Engine state for the C9 witness: ID `5` registered as a master request
with declared length 0, engine waiting for SYNC after a BREAK. -/
def stC9 : LIN_Slave :=
  {initSlave with
    state := STATE_WAIT_FOR_SYNC
    callback := fun j => if j = 5 then ⟨0x10, some cbId⟩ else ⟨0, none⟩}

/-- Engine state for the C6 witness: master-request frame for ID `5`
(registered, `type_numData = 0x12`), payload `{0xAA, 0xBB}` complete, waiting
for the checksum byte. -/
def stC6 : LIN_Slave :=
  {initSlave with
    state := STATE_WAIT_FOR_CHK
    id := 5
    pid := _calculatePID 5
    numData := 2
    bufData := fun j => if j = 0 then 0xAA else if j = 1 then 0xBB else 0
    callback := fun j => if j = 5 then ⟨0x12, some cbId⟩ else ⟨0, none⟩}

/-- Environment for the C6 witness: the correct checksum byte arrives. -/
def envC6 : Env :=
  ⟨7, false, [_calculateChecksum LIN_V2 (_calculatePID 5) 2 stC6.bufData]⟩

/-- Engine state for the C8 witness: a SYNC error (bit 4) is already latched
from an earlier frame; the engine now waits for a checksum that will not
match. -/
def stC8 : LIN_Slave :=
  {initSlave with
    state := STATE_WAIT_FOR_CHK
    error := ERROR_SYNC
    id := 5
    numData := 0
    callback := fun j => if j = 5 then ⟨0x10, some cbId⟩ else ⟨0, none⟩}

/-- Environment for the C8 witness: byte `0x00` arrives, which is not the
computed checksum (`0xFF`). -/
def envC8 : Env := ⟨3, false, [0x00]⟩

/-! ## Theorems -/

/-- The guard of the receive-timeout branch: since the state mask
`STATE_OFF | STATE_WAIT_FOR_BREAK | STATE_DONE` is nonzero, the bitwise OR
with any state is nonzero, so the C expression
`!(state | (STATE_OFF | STATE_WAIT_FOR_BREAK | STATE_DONE))` is false for
every state. -/
theorem state_or_mask_ne_zero (x : Nat) :
    x ||| (STATE_OFF ||| STATE_WAIT_FOR_BREAK ||| STATE_DONE) ≠ 0 := by
  simp only [STATE_OFF, STATE_WAIT_FOR_BREAK, STATE_DONE]
  intro h
  have h0 := congrArg (fun n => Nat.testBit n 0) h
  simp [Nat.testBit_or] at h0

/-- Since the timeout guard is dead (see `state_or_mask_ne_zero`), every
`handler()` invocation is the BREAK phase followed by the byte phase. -/
theorem handler_no_timeout (env : Env) (s : LIN_Slave) :
    handler env s = handleBreak env env.rx [] s :=
  if_neg (fun hc => state_or_mask_ne_zero s.state hc.1)

/-- With the BREAK flag clear, the BREAK phase is the identity. -/
theorem handleBreak_noBreak (env : Env) (rx1 : List Nat) (ev1 : List Event)
    (s1 : LIN_Slave) (h : env.breakFlag = false) :
    handleBreak env rx1 ev1 s1 = handleByte env rx1 ev1 s1 := by
  rw [handleBreak, if_neg (by rw [h]; exact Bool.false_ne_true)]

/-- The function `_calculatePID` only depends on the 6-bit ID. -/
theorem calculatePID_mod64 (x : Nat) : _calculatePID x = _calculatePID (x % 64) := by
  simp only [_calculatePID, Nat.mod_mod_of_dvd x dvd_rfl]

/-- For 6-bit IDs, `_calculatePID` is bounded by 255, reduces to the ID under
`% 64`, and is a fixed point of another `_calculatePID` application. -/
theorem calculatePID_facts :
    ∀ y < 64, _calculatePID y < 256 ∧ _calculatePID y % 64 = y
      ∧ _calculatePID (_calculatePID y % 64) = _calculatePID y := by decide

/-- Nibble arithmetic of the packed `type_numData` byte. -/
theorem typeNumData_nibbles :
    ∀ m < 16,
      (MASTER_REQUEST ||| m) % 16 = m
      ∧ (MASTER_REQUEST ||| m) &&& 0xF0 = MASTER_REQUEST
      ∧ (MASTER_REQUEST ||| m) &&& MASTER_REQUEST ≠ 0
      ∧ (MASTER_REQUEST ||| m) &&& SLAVE_RESPONSE = 0
      ∧ (SLAVE_RESPONSE ||| m) % 16 = m
      ∧ (SLAVE_RESPONSE ||| m) &&& 0xF0 = SLAVE_RESPONSE
      ∧ (SLAVE_RESPONSE ||| m) &&& SLAVE_RESPONSE ≠ 0 := by decide

set_option maxRecDepth 4096 in
/-- Claim C3: for every 6-bit ID, `calculatePID(id) & 0x3F = id`, bit 6 of the
protected ID is the XOR of ID bits 0, 1, 2, 4, bit 7 is the inverted XOR of ID
bits 1, 3, 4, 5; and for every 8-bit input the upper two bits are ignored. -/
theorem calculatePID_parity :
    (∀ id < 64, _calculatePID id &&& 0x3F = id
      ∧ ((_calculatePID id).testBit 6
          = (id.testBit 0).xor ((id.testBit 1).xor ((id.testBit 2).xor (id.testBit 4))))
      ∧ ((_calculatePID id).testBit 7
          = !((id.testBit 1).xor ((id.testBit 3).xor ((id.testBit 4).xor (id.testBit 5))))))
    ∧ (∀ x < 256, _calculatePID x = _calculatePID (x &&& 0x3F)) := by decide

/-- Witness for C3 at ID `0x33` and 8-bit input `0xF3`. -/
theorem calculatePID_parity_witness :
    (_calculatePID 0x33 &&& 0x3F = 0x33
      ∧ ((_calculatePID 0x33).testBit 6
          = ((0x33 : Nat).testBit 0).xor (((0x33 : Nat).testBit 1).xor
              (((0x33 : Nat).testBit 2).xor ((0x33 : Nat).testBit 4))))
      ∧ ((_calculatePID 0x33).testBit 7
          = !(((0x33 : Nat).testBit 1).xor (((0x33 : Nat).testBit 3).xor
              (((0x33 : Nat).testBit 4).xor ((0x33 : Nat).testBit 5))))))
    ∧ _calculatePID 0xF3 = _calculatePID (0xF3 &&& 0x3F) :=
  ⟨calculatePID_parity.1 0x33 (by decide), calculatePID_parity.2 0xF3 (by decide)⟩

/-- Claim C10: registration only rewrites the table slot `ID % 64`, storing the
frame kind in the high nibble and `NumData % 16` in the low nibble together
with the callback reference; every other slot and all other engine state is
unchanged.  Stated for both registration operations. -/
theorem register_handler_effect (s : LIN_Slave) (ID : Nat)
    (Fct : Option LinMessageCallback) (NumData : Nat) :
    ((registerMasterRequestHandler s ID Fct NumData).callback (ID % 64)
        = ⟨MASTER_REQUEST ||| NumData % 16, Fct⟩)
    ∧ ((registerMasterRequestHandler s ID Fct NumData).callback (ID % 64)).type_numData % 16
        = NumData % 16
    ∧ ((registerMasterRequestHandler s ID Fct NumData).callback (ID % 64)).type_numData &&& 0xF0
        = MASTER_REQUEST
    ∧ (∀ j, j ≠ ID % 64 →
        (registerMasterRequestHandler s ID Fct NumData).callback j = s.callback j)
    ∧ (registerMasterRequestHandler s ID Fct NumData).state = s.state
    ∧ (registerMasterRequestHandler s ID Fct NumData).error = s.error
    ∧ (registerMasterRequestHandler s ID Fct NumData).bufData = s.bufData
    ∧ (registerMasterRequestHandler s ID Fct NumData).idxData = s.idxData
    ∧ (registerMasterRequestHandler s ID Fct NumData).numData = s.numData
    ∧ (registerMasterRequestHandler s ID Fct NumData).pid = s.pid
    ∧ (registerMasterRequestHandler s ID Fct NumData).id = s.id
    ∧ (registerMasterRequestHandler s ID Fct NumData).version = s.version
    ∧ (registerMasterRequestHandler s ID Fct NumData).timeoutRx = s.timeoutRx
    ∧ (registerMasterRequestHandler s ID Fct NumData).timeLastRx = s.timeLastRx
    ∧ ((registerSlaveResponseHandler s ID Fct NumData).callback (ID % 64)
        = ⟨SLAVE_RESPONSE ||| NumData % 16, Fct⟩)
    ∧ ((registerSlaveResponseHandler s ID Fct NumData).callback (ID % 64)).type_numData % 16
        = NumData % 16
    ∧ ((registerSlaveResponseHandler s ID Fct NumData).callback (ID % 64)).type_numData &&& 0xF0
        = SLAVE_RESPONSE
    ∧ (∀ j, j ≠ ID % 64 →
        (registerSlaveResponseHandler s ID Fct NumData).callback j = s.callback j)
    ∧ (registerSlaveResponseHandler s ID Fct NumData).state = s.state
    ∧ (registerSlaveResponseHandler s ID Fct NumData).error = s.error := by
  have hm := typeNumData_nibbles (NumData % 16) (Nat.mod_lt _ (by norm_num))
  refine ⟨?_, ?_, ?_, ?_, rfl, rfl, rfl, rfl, rfl, rfl, rfl, rfl, rfl, rfl,
    ?_, ?_, ?_, ?_, rfl, rfl⟩
  · simp [registerMasterRequestHandler]
  · simp [registerMasterRequestHandler, hm.1]
  · simp [registerMasterRequestHandler, hm.2.1]
  · intro j hj
    simp [registerMasterRequestHandler, hj]
  · simp [registerSlaveResponseHandler]
  · simp [registerSlaveResponseHandler, hm.2.2.2.2.1]
  · simp [registerSlaveResponseHandler, hm.2.2.2.2.2.1]
  · intro j hj
    simp [registerSlaveResponseHandler, hj]

/-- Witness for C10 at `ID = 0x45` (slot `0x05`), `NumData = 20` (stored as
`4`), checking an untouched slot. -/
theorem register_handler_effect_witness :
    ((registerMasterRequestHandler initSlave 0x45 none 20).callback (0x45 % 64)
        = ⟨MASTER_REQUEST ||| 20 % 16, none⟩)
    ∧ (registerMasterRequestHandler initSlave 0x45 none 20).callback 3
        = initSlave.callback 3
    ∧ (registerMasterRequestHandler initSlave 0x45 none 20).state = initSlave.state :=
  ⟨(register_handler_effect initSlave 0x45 none 20).1,
    (register_handler_effect initSlave 0x45 none 20).2.2.2.1 3 (by decide),
    (register_handler_effect initSlave 0x45 none 20).2.2.2.2.1⟩

/-- Claim C1 (code bug): the elapsed time since the last received byte vastly
exceeds the configured receive timeout while the engine is mid-frame, yet
`handler()` latches no error, stays in `STATE_RECEIVING_DATA`, and consumes
the pending byte as ordinary frame data instead of aborting.  The C guard
`!(state | (STATE_OFF | STATE_WAIT_FOR_BREAK | STATE_DONE))` uses bitwise OR
where the comment above it ("on receive timeout [us] within frame reset state
machine") requires AND, so it is false for every state and the timeout branch
is dead code (see `state_or_mask_ne_zero`). -/
theorem timeout_branch_dead :
    stC1.state = STATE_RECEIVING_DATA
    ∧ (envC1.micros + 2 ^ 32 - stC1.timeLastRx) % 2 ^ 32 > stC1.timeoutRx
    ∧ (handler envC1 stC1).st.error = NO_ERROR
    ∧ (handler envC1 stC1).st.state = STATE_RECEIVING_DATA
    ∧ (handler envC1 stC1).st.bufData 0 = 0x42
    ∧ (handler envC1 stC1).events = [] := by
  refine ⟨rfl, by decide, rfl, rfl, rfl, rfl⟩

/-- Counterexample to claim C5 as stated: in mid-frame state
`STATE_RECEIVING_DATA` (neither Done nor WaitForBreak), a break-detected event
restarts frame reception — the engine moves to `STATE_WAIT_FOR_SYNC`. -/
theorem break_midframe_restarts_cex :
    stC5.state = STATE_RECEIVING_DATA
    ∧ (handler envC5 stC5).st.state = STATE_WAIT_FOR_SYNC := by
  refine ⟨rfl, rfl⟩

/-- Amended claim C5: a detected BREAK always moves the engine to
`STATE_WAIT_FOR_SYNC`, regardless of the current state; a BREAK observed
mid-frame aborts the in-flight frame and immediately starts a new one — a new
frame does not require the previous one to have reached Done or WaitForBreak.
The latched error mask is not touched by the restart. -/
theorem break_always_restarts (env : Env) (s : LIN_Slave)
    (hbrk : env.breakFlag = true) (hrx : env.rx = []) :
    (handler env s).st.state = STATE_WAIT_FOR_SYNC
    ∧ (handler env s).st.error = s.error
    ∧ (handler env s).events = [Event.txDisable] := by
  rw [handler, if_neg (fun hc => state_or_mask_ne_zero s.state hc.1), hrx,
    handleBreak, if_pos hbrk]
  simp [handleByte]

/-- Witness for the amended claim C5 at the concrete mid-frame state. -/
theorem break_always_restarts_witness :
    (handler envC5 stC5).st.state = STATE_WAIT_FOR_SYNC
    ∧ (handler envC5 stC5).st.error = stC5.error
    ∧ (handler envC5 stC5).events = [Event.txDisable] :=
  break_always_restarts envC5 stC5 rfl rfl

/-- Claim C7: in `STATE_WAIT_FOR_PID`, a byte that is a valid protected ID
(equal to `calculatePID` of its own low 6 bits) whose 6-bit ID has no
registered callback sends the engine to `STATE_WAIT_FOR_BREAK`, leaves the
latched error mask unchanged, and invokes no callback (no event at all is
emitted). -/
theorem unregistered_id_dropped (env : Env) (s : LIN_Slave) (b : Nat)
    (hstate : s.state = STATE_WAIT_FOR_PID)
    (hb : b = _calculatePID (b % 64))
    (hf : (s.callback (b % 64)).fct = none)
    (hbrk : env.breakFlag = false)
    (hrx : env.rx = [b]) :
    (handler env s).st.state = STATE_WAIT_FOR_BREAK
    ∧ (handler env s).st.error = s.error
    ∧ (handler env s).events = [] := by
  rw [handler_no_timeout, handleBreak_noBreak _ _ _ _ hbrk, hrx, handleByte]
  simp only [hstate, STATE_WAIT_FOR_PID, STATE_OFF, STATE_WAIT_FOR_BREAK,
    STATE_DONE, STATE_WAIT_FOR_SYNC]
  norm_num
  simp only [← hb]
  simp [hf]

/-- Witness for C7: frame ID `0x10` is unregistered, the engine drops the
frame silently. -/
theorem unregistered_id_dropped_witness :
    (handler envC7 stC7).st.state = STATE_WAIT_FOR_BREAK
    ∧ (handler envC7 stC7).st.error = stC7.error
    ∧ (handler envC7 stC7).events = [] :=
  unregistered_id_dropped envC7 stC7 0x50 rfl (by decide) rfl rfl rfl

/-- Claim C6: in `STATE_WAIT_FOR_CHK` with a registered callback, a received
byte equal to the computed checksum invokes the master-request callback
exactly once with the received data and finishes the frame with the error mask
unchanged; any other byte latches ERROR_CHK, finishes the frame, and invokes
no callback. -/
theorem checksum_verdict (env : Env) (s : LIN_Slave) (b : Nat)
    (f : LinMessageCallback)
    (hstate : s.state = STATE_WAIT_FOR_CHK)
    (hf : (s.callback s.id).fct = some f)
    (hbrk : env.breakFlag = false)
    (hrx : env.rx = [b]) :
    (handler env s).st.state = STATE_DONE
    ∧ (b = _calculateChecksum s.version s.pid s.numData s.bufData →
        (handler env s).st.error = s.error
        ∧ (handler env s).events
            = [Event.callbackCall s.id s.numData
                ((List.range s.numData).map s.bufData), Event.txDisable])
    ∧ (b ≠ _calculateChecksum s.version s.pid s.numData s.bufData →
        (handler env s).st.error = s.error ||| ERROR_CHK
        ∧ (handler env s).events = [Event.txDisable]) := by
  rw [handler_no_timeout, handleBreak_noBreak _ _ _ _ hbrk, hrx, handleByte]
  simp only [hstate, STATE_WAIT_FOR_CHK, STATE_OFF, STATE_WAIT_FOR_BREAK,
    STATE_DONE, STATE_WAIT_FOR_SYNC, STATE_WAIT_FOR_PID, STATE_RECEIVING_DATA,
    STATE_RECEIVING_ECHO]
  norm_num
  by_cases hch : b = _calculateChecksum s.version s.pid s.numData s.bufData
  · simp [hch, hf]
  · simp [hch, hf]

/-- Mapping a buffer with the checksum attached at index `n` over `0..n` gives
the first `n` buffer bytes followed by the checksum. -/
theorem range_map_update (n chk : Nat) (buf : Nat → Nat) :
    (List.range (n + 1)).map (fun j => if j = n then chk else buf j)
      = (List.range n).map buf ++ [chk] := by
  rw [List.range_succ, List.map_append]
  simp only [List.map_cons, List.map_nil, if_pos rfl]
  congr 1
  apply List.map_congr_left
  intro a ha
  rw [if_neg (Nat.ne_of_lt (List.mem_range.mp ha))]

/-- Claim C4: in `STATE_WAIT_FOR_PID`, on reception of the protected ID of a
frame ID registered as slave response with declared length `n` and callback
`f`, the engine invokes `f` exactly once, transmits exactly the `n` bytes the
callback produced followed by the checksum over them, and moves to
`STATE_RECEIVING_ECHO`. -/
theorem slave_response_tx (env : Env) (s : LIN_Slave) (ID n : Nat)
    (f : LinMessageCallback)
    (hID : ID < 64)
    (hstate : s.state = STATE_WAIT_FOR_PID)
    (hslot : s.callback ID = ⟨SLAVE_RESPONSE ||| n, some f⟩)
    (hn : n ≤ 8)
    (hbrk : env.breakFlag = false)
    (hrx : env.rx = [_calculatePID ID]) :
    (handler env s).st.state = STATE_RECEIVING_ECHO
    ∧ (handler env s).st.numData = n
    ∧ (handler env s).events
        = [Event.callbackCall ID n ((List.range n).map s.bufData),
           Event.txEnable,
           Event.serialWrite ((List.range n).map (f n s.bufData)
             ++ [_calculateChecksum s.version (_calculatePID ID) n (f n s.bufData)])] := by
  have hn16 : n < 16 := by omega
  obtain ⟨h1, h2, h3, h4, h5, h6, h7⟩ := typeNumData_nibbles n hn16
  have hmod := (calculatePID_facts ID hID).2.1
  rw [handler_no_timeout, handleBreak_noBreak _ _ _ _ hbrk, hrx, handleByte]
  simp only [hstate, STATE_WAIT_FOR_PID, STATE_OFF, STATE_WAIT_FOR_BREAK,
    STATE_DONE, STATE_WAIT_FOR_SYNC]
  norm_num
  rw [hmod]
  simp only [hslot]
  simp [h5, h7, range_map_update]

/-- Witness for C4, the spec's concrete scenario: the engine answers the
header for ID `0x10` with `{0x01, 0x02, 0x03, 0x04, 0xA5}` where `0xA5 =
0xFF - (0x01+0x02+0x03+0x04+calculatePID(0x10))` with end-around carry. -/
theorem slave_response_tx_witness :
    (handler envC4 stC4).st.state = STATE_RECEIVING_ECHO
    ∧ (handler envC4 stC4).events
        = [Event.callbackCall 0x10 4 [0, 0, 0, 0],
           Event.txEnable,
           Event.serialWrite [0x01, 0x02, 0x03, 0x04, 0xA5]] := by
  have h := slave_response_tx envC4 stC4 0x10 4 cbC4 (by decide) rfl rfl
    (by decide) rfl rfl
  exact ⟨h.1, by rw [h.2.2]; decide⟩

/-- Claim C9: a frame ID registered as master request with declared length 0:
after SYNC and a valid PID the engine enters `STATE_RECEIVING_DATA`, and the
next received byte (the checksum byte of a wire-conformant zero-data frame) is
stored into the data buffer and advances the state to `STATE_WAIT_FOR_CHK`;
no callback is invoked in any of the three steps. -/
theorem zero_length_master_request (s : LIN_Slave) (ID b m1 m2 m3 : Nat)
    (f : LinMessageCallback)
    (hID : ID < 64)
    (hstate : s.state = STATE_WAIT_FOR_SYNC)
    (hslot : s.callback ID = ⟨MASTER_REQUEST ||| 0, some f⟩) :
    (handler ⟨m1, false, [0x55]⟩ s).st.state = STATE_WAIT_FOR_PID
    ∧ (handler ⟨m1, false, [0x55]⟩ s).events = []
    ∧ (handler ⟨m2, false, [_calculatePID ID]⟩
        (handler ⟨m1, false, [0x55]⟩ s).st).st.state = STATE_RECEIVING_DATA
    ∧ (handler ⟨m2, false, [_calculatePID ID]⟩
        (handler ⟨m1, false, [0x55]⟩ s).st).events = []
    ∧ (handler ⟨m3, false, [b]⟩ (handler ⟨m2, false, [_calculatePID ID]⟩
        (handler ⟨m1, false, [0x55]⟩ s).st).st).st.state = STATE_WAIT_FOR_CHK
    ∧ (handler ⟨m3, false, [b]⟩ (handler ⟨m2, false, [_calculatePID ID]⟩
        (handler ⟨m1, false, [0x55]⟩ s).st).st).st.bufData 0 = b
    ∧ (handler ⟨m3, false, [b]⟩ (handler ⟨m2, false, [_calculatePID ID]⟩
        (handler ⟨m1, false, [0x55]⟩ s).st).st).events = [] := by
  have hmod := (calculatePID_facts ID hID).2.1
  have e1 : handler ⟨m1, false, [0x55]⟩ s
      = ⟨{s with timeLastRx := m1, idxData := 0, state := STATE_WAIT_FOR_PID}, [], []⟩ := by
    rw [handler_no_timeout, handleBreak_noBreak _ _ _ _ rfl, handleByte]
    simp only [hstate, STATE_WAIT_FOR_SYNC, STATE_OFF, STATE_WAIT_FOR_BREAK, STATE_DONE]
    norm_num
  rw [e1]
  have e2 : handler ⟨m2, false, [_calculatePID ID]⟩
        ({s with timeLastRx := m1, idxData := 0, state := STATE_WAIT_FOR_PID} : LIN_Slave)
      = ⟨{s with
          timeLastRx := m2
          idxData := 0
          state := STATE_RECEIVING_DATA
          pid := _calculatePID ID
          id := ID
          type := MASTER_REQUEST
          numData := 0}, [], []⟩ := by
    rw [handler_no_timeout, handleBreak_noBreak _ _ _ _ rfl, handleByte]
    simp only [STATE_WAIT_FOR_PID, STATE_OFF, STATE_WAIT_FOR_BREAK, STATE_DONE,
      STATE_WAIT_FOR_SYNC]
    norm_num
    rw [hmod]
    simp only [hslot]
    simp [MASTER_REQUEST, SLAVE_RESPONSE,
      (by decide : (16 : Nat) &&& 32 = 0), (by decide : (16 : Nat) &&& 240 = 16)]
  rw [e2]
  rw [handler_no_timeout, handleBreak_noBreak _ _ _ _ rfl, handleByte]
  simp only [STATE_RECEIVING_DATA, STATE_OFF, STATE_WAIT_FOR_BREAK, STATE_DONE,
    STATE_WAIT_FOR_SYNC, STATE_WAIT_FOR_PID]
  norm_num

/-- Witness for C9 at ID `5`, checksum byte `0x77`. -/
theorem zero_length_master_request_witness :
    (handler ⟨0, false, [0x55]⟩ stC9).st.state = STATE_WAIT_FOR_PID
    ∧ (handler ⟨1, false, [_calculatePID 5]⟩
        (handler ⟨0, false, [0x55]⟩ stC9).st).st.state = STATE_RECEIVING_DATA
    ∧ (handler ⟨2, false, [0x77]⟩ (handler ⟨1, false, [_calculatePID 5]⟩
        (handler ⟨0, false, [0x55]⟩ stC9).st).st).st.state = STATE_WAIT_FOR_CHK
    ∧ (handler ⟨2, false, [0x77]⟩ (handler ⟨1, false, [_calculatePID 5]⟩
        (handler ⟨0, false, [0x55]⟩ stC9).st).st).st.bufData 0 = 0x77 := by
  have h := zero_length_master_request stC9 5 0x77 0 1 2 cbId (by decide) rfl rfl
  exact ⟨h.1, h.2.2.1, h.2.2.2.2.1, h.2.2.2.2.2.1⟩

/-- Witness for C6: matching checksum invokes the callback once with the two
received bytes and finishes the frame without an error. -/
theorem checksum_verdict_witness :
    (handler envC6 stC6).st.state = STATE_DONE
    ∧ (handler envC6 stC6).st.error = stC6.error
    ∧ (handler envC6 stC6).events
        = [Event.callbackCall stC6.id stC6.numData
            ((List.range stC6.numData).map stC6.bufData), Event.txDisable] := by
  have h := checksum_verdict envC6 stC6
    (_calculateChecksum LIN_V2 (_calculatePID 5) 2 stC6.bufData) cbId rfl rfl rfl rfl
  exact ⟨h.1, (h.2.1 rfl).1, (h.2.1 rfl).2⟩

set_option maxRecDepth 4096 in
/-- The byte phase never clears a latched error bit. -/
theorem error_monotone_byte (env : Env) (rx1 : List Nat) (ev : List Event)
    (s : LIN_Slave) (i : Nat) (h : s.error.testBit i = true) :
    ((handleByte env rx1 ev s).st.error).testBit i = true := by
  cases rx1 with
  | nil => exact h
  | cons b r =>
    rw [handleByte]
    dsimp only
    repeat' split
    all_goals simp [Nat.testBit_or, h]

/-- The BREAK phase never clears a latched error bit. -/
theorem error_monotone_break (env : Env) (rx1 : List Nat) (ev : List Event)
    (s : LIN_Slave) (i : Nat) (h : s.error.testBit i = true) :
    ((handleBreak env rx1 ev s).st.error).testBit i = true := by
  rw [handleBreak]
  split
  · exact error_monotone_byte env rx1 _ _ i h
  · exact error_monotone_byte env rx1 _ _ i h

/-- Claim C8: the latched error mask is monotonically non-decreasing across
every `handler()` invocation (bits are only ORed in, never removed, and a
successful frame does not clear them); `resetError()`, `begin()` and `end()`
set it to the empty mask; `getError()` returns the mask unmodified. -/
theorem error_latched :
    (∀ (env : Env) (s : LIN_Slave) (i : Nat), s.error.testBit i = true →
        ((handler env s).st.error).testBit i = true)
    ∧ (∀ s, (resetError s).error = NO_ERROR)
    ∧ (∀ s, getError s = s.error)
    ∧ (∀ s B, (begin' s B).error = NO_ERROR)
    ∧ (∀ s, (end' s).error = NO_ERROR) := by
  refine ⟨fun env s i h => ?_, fun s => rfl, fun s => rfl, fun s B => rfl, fun s => rfl⟩
  rw [handler]
  split
  · exact error_monotone_break env _ _ _ i (by simp [Nat.testBit_or, h])
  · exact error_monotone_break env _ _ _ i h

/-- Witness for C8: the SYNC bit survives the handler invocation that latches
the CHK bit, so both are set afterwards. -/
theorem error_latched_witness :
    Nat.testBit stC8.error 4 = true
    ∧ ((handler envC8 stC8).st.error).testBit 4 = true
    ∧ (handler envC8 stC8).st.error = (ERROR_SYNC ||| ERROR_CHK)
    ∧ (resetError (handler envC8 stC8).st).error = NO_ERROR :=
  ⟨by decide, error_latched.1 envC8 stC8 4 (by decide), by decide,
    error_latched.2.1 (handler envC8 stC8).st⟩

/-- The checksum loop with the `uint16_t` mod is the plain end-around-carry
loop, and its accumulator stays within a byte (given byte inputs and a byte
seed). -/
theorem chkLoop_spec (l : List Nat) (a : Nat) (ha : a ≤ 255) (hl : ∀ x ∈ l, x < 256) :
    l.foldl (fun c b =>
        let c2 := (c + b) % 65536
        if c2 > 255 then c2 - 255 else c2) a
      = l.foldl (fun c b =>
        let c2 := c + b
        if c2 > 255 then c2 - 255 else c2) a
    ∧ l.foldl (fun c b =>
        let c2 := c + b
        if c2 > 255 then c2 - 255 else c2) a ≤ 255 := by
  induction l generalizing a with
  | nil => exact ⟨rfl, ha⟩
  | cons x t ih =>
    have hx : x < 256 := hl x (by simp)
    have ht : ∀ y ∈ t, y < 256 := fun y hy => hl y (by simp [hy])
    simp only [List.foldl_cons]
    dsimp only
    rw [Nat.mod_eq_of_lt (by omega : a + x < 65536)]
    by_cases hgt : a + x > 255
    · simp only [if_pos hgt]
      exact ih (a + x - 255) (by omega) ht
    · simp only [if_neg hgt]
      exact ih (a + x) (by omega) ht

/-- Folding over the index range of a list through `getD` is folding over the
list. -/
theorem foldl_range_getD (g : Nat → Nat → Nat) (a : Nat) (l : List Nat) :
    (List.range l.length).foldl (fun c i => g c (l.getD i 0)) a = l.foldl g a := by
  induction l generalizing a with
  | nil => rfl
  | cons x t ih =>
    rw [List.length_cons, List.range_succ_eq_map, List.foldl_cons, List.foldl_map]
    simpa using ih (g a x)

set_option maxRecDepth 8192 in
/-- For a byte, XOR with `0xFF` (bitwise complement) is subtraction from 255. -/
theorem xor255 : ∀ x < 256, 255 ^^^ x = 255 - x := by decide

set_option maxRecDepth 4096 in
/-- The protected IDs `0x3C` and `0x7D` tested by `_calculateChecksum`
correspond exactly to the unprotected diagnostic IDs `0x3C` and `0x3D`. -/
theorem diag_pid_iff : ∀ y < 64,
    (_calculatePID y = 0x3C ↔ y = 0x3C) ∧ (_calculatePID y = 0x7D ↔ y = 0x3D) := by decide

/-- Claim C2: for at most 8 data bytes and any protocol version and frame ID,
the code's checksum is the bitwise complement (XOR with `0xFF`) of the
end-around-carry byte sum over exactly the data bytes when the version is V1
or the unprotected ID is `0x3C`/`0x3D`, and over the stored protected ID
followed by the data bytes otherwise. -/
theorem checksum_matches_spec (version id : Nat) (data : List Nat)
    (hn : data.length ≤ 8) (hdata : ∀ x ∈ data, x < 256) :
    _calculateChecksum version (_calculatePID id) data.length (fun i => data.getD i 0)
      = 255 ^^^ eacSum (if version = LIN_V1 ∨ id % 64 = 0x3C ∨ id % 64 = 0x3D
          then data else _calculatePID id :: data) := by
  have hidlt : id % 64 < 64 := Nat.mod_lt _ (by norm_num)
  have hpid : _calculatePID id < 256 := by
    rw [calculatePID_mod64]
    exact ((calculatePID_facts (id % 64) hidlt).1)
  have hdiag := diag_pid_iff (id % 64) hidlt
  have hcond : (version = LIN_V1 ∨ _calculatePID id = 0x3C ∨ _calculatePID id = 0x7D)
      ↔ (version = LIN_V1 ∨ id % 64 = 0x3C ∨ id % 64 = 0x3D) := by
    rw [calculatePID_mod64]
    constructor
    · rintro (h | h | h)
      · exact Or.inl h
      · exact Or.inr (Or.inl (hdiag.1.mp h))
      · exact Or.inr (Or.inr (hdiag.2.mp h))
    · rintro (h | h | h)
      · exact Or.inl h
      · exact Or.inr (Or.inl (hdiag.1.mpr h))
      · exact Or.inr (Or.inr (hdiag.2.mpr h))
  rw [_calculateChecksum]
  dsimp only
  by_cases hc : version = LIN_V1 ∨ id % 64 = 0x3C ∨ id % 64 = 0x3D
  · rw [if_neg (by rw [not_not]; exact hcond.mpr hc), if_pos hc]
    rw [foldl_range_getD
      (fun c b => let c2 := (c + b) % 65536; if c2 > 255 then c2 - 255 else c2) 0 data]
    obtain ⟨heq, hle⟩ := chkLoop_spec data 0 (by norm_num) hdata
    rw [heq, eacSum]
    rw [Nat.mod_eq_of_lt (by omega), xor255 _ (by omega)]
  · rw [if_pos (fun hcc => hc (hcond.mp hcc)), if_neg hc]
    rw [foldl_range_getD
      (fun c b => let c2 := (c + b) % 65536; if c2 > 255 then c2 - 255 else c2)
      (_calculatePID id) data]
    obtain ⟨heq, hle⟩ := chkLoop_spec data (_calculatePID id) (by omega) hdata
    rw [heq, eacSum]
    simp only [List.foldl_cons]
    dsimp only at hle ⊢
    simp only [Nat.zero_add]
    rw [if_neg (by omega : ¬(_calculatePID id > 255))]
    rw [Nat.mod_eq_of_lt (by omega), xor255 _ (by omega)]

/-- Witness for C2: protocol V2, frame ID `0x10`, data `{1, 2, 3, 4}` — the
extended checksum, complement of the end-around-carry sum seeded with the
protected ID. -/
theorem checksum_matches_spec_witness :
    _calculateChecksum LIN_V2 (_calculatePID 0x10) 4 (fun i => [1, 2, 3, 4].getD i 0)
      = 255 ^^^ eacSum (_calculatePID 0x10 :: [1, 2, 3, 4]) := by
  have h := checksum_matches_spec LIN_V2 0x10 [1, 2, 3, 4] (by decide) (by decide)
  rw [if_neg (by decide)] at h
  exact h
